import Mathlib

/-!
Shallow embedding of the PiControl Hub driver for the Eversolo DMP-A6
(`pi_control_hub_driver_dmpa6`): the discovery/cache registry
(`device_driver.py`), the command catalog and remote layout
(`commands.py`, `device_driver.py`), the zeroconf service listener
(`device_driver.py`), and the HTTP control client (`eversolo.py`).

Python exceptions are modelled with `Except PyExn`: a `.error` result of an
embedded operation means the corresponding Python call raises an exception
that escapes that operation.  The dbm cache file is modelled as the optional
value stored under the single key `"cached_devices"`.
-/

namespace DmpA6

/-- Embeds the host API `DeviceInfo` value as constructed in this repository:
a display name together with the device id (the device's host address). -/
structure DeviceInfo where
  name : String
  device_id : String
deriving DecidableEq, Repr

/-- One element of the JSON array stored under the `"cached_devices"` cache
key: `_cache_devices` serialises each device as the dict
`{"name": d.name, "device_id": d.device_id}`. -/
structure CachedDevice where
  name : String
  device_id : String
deriving DecidableEq, Repr

/-- The Python exceptions that the embedded operations can raise. -/
inductive PyExn where
  /-- `TypeError`, raised e.g. by subscripting the function `json.loads`. -/
  | typeError
  /-- `KeyError`, raised by a dict lookup on a missing key. -/
  | keyError
  /-- `json.JSONDecodeError`, raised by `json.loads` on a malformed body. -/
  | jsonDecodeError
  /-- `DeviceNotFoundException(device_id)` from the host driver API. -/
  | deviceNotFound (device_id : String)
  /-- `CommandNotFoundException(name, cmd_id)` from the host driver API. -/
  | commandNotFound (driver_name : String) (cmd_id : Int)
deriving DecidableEq, Repr

/-- The state visible to `DmpA6DeviceDriverDescriptor`:
`live` is the zeroconf browser's in-memory `_devices` list and `cache` the
optional value stored under the `"cached_devices"` key of the dbm file
(`none` when the key is absent).  The JSON string payload is modelled by the
list of `{name, device_id}` records it encodes. -/
structure RegistryState where
  live : List DeviceInfo
  cache : Option (List CachedDevice)
deriving DecidableEq, Repr

/-- The `{"name": ..., "device_id": ...}` serialisation performed by
`_cache_devices` before `json.dumps`. -/
def encode_devices (devices : List DeviceInfo) : List CachedDevice :=
  devices.map fun d => ⟨d.name, d.device_id⟩

/-- Embeds `DmpA6DeviceDriverDescriptor._cached_devices`.  When the cache key
is present the source runs `devices_jsn = json.loads[jsn]`, which subscripts
the function object `json.loads` and therefore raises `TypeError` before any
JSON is parsed; when the key is absent it returns the browser's live list. -/
def cached_devices (st : RegistryState) : Except PyExn (List DeviceInfo) :=
  match st.cache with
  | some _ => .error .typeError
  | none => .ok st.live

/-- Embeds `DmpA6DeviceDriverDescriptor._cache_devices`: overwrite the
`"cached_devices"` key with the JSON serialisation of the given list. -/
def cache_devices (st : RegistryState) (devices : List DeviceInfo) : RegistryState :=
  { st with cache := some (encode_devices devices) }

/-- Embeds `DmpA6DeviceDriverDescriptor.get_devices`: if the live list is
empty, delegate to `_cached_devices`; otherwise persist the live list and
return it.  The returned pair is (result, post-state of the cache file). -/
def get_devices (st : RegistryState) : Except PyExn (List DeviceInfo) × RegistryState :=
  if st.live.length = 0 then
    (cached_devices st, st)
  else
    (.ok st.live, cache_devices st st.live)

/-- Embeds `DmpA6DeviceDriverDescriptor.get_device`: filter the result of
`get_devices` by device id; raise `DeviceNotFoundException` when the filtered
list is empty, else return its first element.  An exception escaping
`get_devices` propagates. -/
def get_device (st : RegistryState) (device_id : String) :
    Except PyExn DeviceInfo × RegistryState :=
  match get_devices st with
  | (.error e, st') => (.error e, st')
  | (.ok devices, st') =>
    match devices.filter (fun d => d.device_id == device_id) with
    | [] => (.error (.deviceNotFound device_id), st')
    | d :: _ => (.ok d, st')

/-! Command catalog (`commands.py`). -/

/-- Command id constant from `commands.py`. -/
def TOGGLE_POWER : Int := 1
/-- Command id constant from `commands.py`. -/
def TOGGLE_DISPLAY : Int := 2
/-- Command id constant from `commands.py`. -/
def TOGGLE_VU : Int := 3
/-- Command id constant from `commands.py`. -/
def VOLUME_UP : Int := 4
/-- Command id constant from `commands.py`. -/
def VOLUME_DOWN : Int := 5
/-- Command id constant from `commands.py`. -/
def PLAY_PAUSE : Int := 6
/-- Command id constant from `commands.py`. -/
def PLAY_NEXT : Int := 7
/-- Command id constant from `commands.py`. -/
def PLAY_PREVIOUS : Int := 8
/-- Command id constant from `commands.py`. -/
def INPUT_INTERNAL_PLAYER : Int := 10
/-- Command id constant from `commands.py`. -/
def INPUT_BLUETOOTH : Int := 11
/-- Command id constant from `commands.py`. -/
def INPUT_USB : Int := 12
/-- Command id constant from `commands.py`. -/
def INPUT_OPTICAL : Int := 13
/-- Command id constant from `commands.py`. -/
def INPUT_COAX : Int := 14
/-- Command id constant from `commands.py`. -/
def OUTPUT_BALXLR : Int := 15
/-- Command id constant from `commands.py`. -/
def OUTPUT_ANALOG_RCA : Int := 16
/-- Command id constant from `commands.py`. -/
def OUTPUT_XLR_RCA : Int := 17
/-- Command id constant from `commands.py`. -/
def OUTPUT_HDMI : Int := 18
/-- Command id constant from `commands.py`. -/
def OUTPUT_SPDIF : Int := 19
/-- Command id constant from `commands.py`. -/
def OUTPUT_USB_DAC : Int := 20

/-- The per-command HTTP callback functions of `eversolo.py` that
`create_commands` binds into `DmpA6HttpDeviceCommand` instances. -/
inductive EversoloCallback where
  | playOrPause
  | increaseVolume
  | decreaseVolume
  | nextTrack
  | previousTrack
  | changeVuDisplay
  | toggleScreen
  | setInputInternalPlayer
  | setInputBluetooth
  | setInputUsb
  | setInputOptical
  | setInputCoax
  | setOutputBalxlr
  | setOutputAnalogRca
  | setOutputXlrRca
  | setOutputHdmi
  | setOutputSpdif
  | setOutputUsb
deriving DecidableEq, Repr

/-- The request path that each callback of `eversolo.py` passes to
`_execute_command`. -/
def callback_uri : EversoloCallback → String
  | .playOrPause => "/ZidooMusicControl/v2/playOrPause"
  | .increaseVolume => "/ZidooControlCenter/RemoteControl/sendkey?key=Key.VolumeUp"
  | .decreaseVolume => "/ZidooControlCenter/RemoteControl/sendkey?key=Key.VolumeDown"
  | .nextTrack => "/ZidooMusicControl/v2/playNext"
  | .previousTrack => "/ZidooMusicControl/v2/playLast"
  | .changeVuDisplay => "/ZidooMusicControl/v2/changVUDisplay"
  | .toggleScreen => "/ZidooMusicControl/v2/setPowerOption?tag=screen"
  | .setInputInternalPlayer => "/ZidooMusicControl/v2/setInputList?tag=XMOS&index=4"
  | .setInputBluetooth => "/ZidooMusicControl/v2/setInputList?tag=BT&index=4"
  | .setInputUsb => "/ZidooMusicControl/v2/setInputList?tag=USB&index=4"
  | .setInputOptical => "/ZidooMusicControl/v2/setInputList?tag=SPDIF&index=4"
  | .setInputCoax => "/ZidooMusicControl/v2/setInputList?tag=RCA&index=4"
  | .setOutputBalxlr => "/ZidooMusicControl/v2/setOutInputList?tag=XLR&index=0"
  | .setOutputAnalogRca => "/ZidooMusicControl/v2/setOutInputList?tag=RCA&index=0"
  | .setOutputXlrRca => "/ZidooMusicControl/v2/setOutInputList?tag=XLRRCA&index=0"
  | .setOutputHdmi => "/ZidooMusicControl/v2/setOutInputList?tag=HDMI&index=0"
  | .setOutputSpdif => "/ZidooMusicControl/v2/setOutInputList?tag=SPDIF&index=0"
  | .setOutputUsb => "/ZidooMusicControl/v2/setOutInputList?tag=USB&index=0"

/-- The executable action bound into a command: either the lirc-based power
toggle (`DmpA6PowerToggleCommand`) or an HTTP callback
(`DmpA6HttpDeviceCommand`). -/
inductive CommandAction where
  | powerToggle
  | http (callback : EversoloCallback)
deriving DecidableEq, Repr

/-- Embeds a `DeviceCommand` as built by `create_commands`: the numeric id,
title, icon asset name (the icon byte blob is an opaque asset), the bound
device address, and the action. -/
structure DeviceCommand where
  id : Int
  title : String
  icon : String
  ip_address : String
  action : CommandAction
deriving DecidableEq, Repr

/-- Embeds `create_commands(device_id)`: the fixed ordered catalog of 19
commands, each bound to the given device address. -/
def create_commands (device_id : String) : List DeviceCommand :=
  [ ⟨TOGGLE_POWER, "On/Off", "toggle_power", device_id, .powerToggle⟩,
    ⟨TOGGLE_DISPLAY, "Display on/off", "toggle_display", device_id, .http .toggleScreen⟩,
    ⟨TOGGLE_VU, "Change VU", "toggle_vu", device_id, .http .changeVuDisplay⟩,
    ⟨VOLUME_UP, "Volume +", "volume_up", device_id, .http .increaseVolume⟩,
    ⟨VOLUME_DOWN, "Volume -", "volume_down", device_id, .http .decreaseVolume⟩,
    ⟨PLAY_PAUSE, "Play/Pause", "play_pause", device_id, .http .playOrPause⟩,
    ⟨PLAY_NEXT, "Next Track", "play_next", device_id, .http .nextTrack⟩,
    ⟨PLAY_PREVIOUS, "Previous Track", "play_previous", device_id, .http .previousTrack⟩,
    ⟨INPUT_INTERNAL_PLAYER, "Input: Internal Player", "in_internal_player", device_id, .http .setInputInternalPlayer⟩,
    ⟨INPUT_BLUETOOTH, "Input: Bluetooth", "in_bluetooth", device_id, .http .setInputBluetooth⟩,
    ⟨INPUT_USB, "Input: USB", "in_usb", device_id, .http .setInputUsb⟩,
    ⟨INPUT_OPTICAL, "Input: Optical", "in_optical", device_id, .http .setInputOptical⟩,
    ⟨INPUT_COAX, "Input: Coax", "in_coax", device_id, .http .setInputCoax⟩,
    ⟨OUTPUT_BALXLR, "Output: Balanced XLR", "out_balxlr", device_id, .http .setOutputBalxlr⟩,
    ⟨OUTPUT_ANALOG_RCA, "Output: Analog RCA", "out_analog_rca", device_id, .http .setOutputAnalogRca⟩,
    ⟨OUTPUT_XLR_RCA, "Output: XLR/RCA", "out_xlr_rca", device_id, .http .setOutputXlrRca⟩,
    ⟨OUTPUT_HDMI, "Output: HDMI", "out_hdmi", device_id, .http .setOutputHdmi⟩,
    ⟨OUTPUT_SPDIF, "Output: ", "out_spdif", device_id, .http .setOutputSpdif⟩,
    ⟨OUTPUT_USB_DAC, "Output: ", "out_usb_dac", device_id, .http .setOutputUsb⟩ ]

/-! Driver facade (`DmpA6DeviceDriver`). -/

/-- Embeds a `DmpA6DeviceDriver` instance: the bound device and the command
catalog built by `__init__` via `create_commands(device_info.device_id)`.
The driver's `name` property of the host base class is the device name. -/
structure DmpA6DeviceDriver where
  device_info : DeviceInfo
  commands : List DeviceCommand
deriving DecidableEq, Repr

/-- Embeds `DmpA6DeviceDriver.__init__`. -/
def mkDriver (device_info : DeviceInfo) : DmpA6DeviceDriver :=
  ⟨device_info, create_commands device_info.device_id⟩

/-- Embeds `DmpA6DeviceDriver.get_command`: filter the catalog by id, return
the first match, raise `CommandNotFoundException(self.name, cmd_id)` when
nothing matches.  The second component is the driver after the call; the
method only reads `self._commands`, so it is returned unchanged. -/
def driver_get_command (drv : DmpA6DeviceDriver) (cmd_id : Int) :
    Except PyExn DeviceCommand × DmpA6DeviceDriver :=
  match drv.commands.filter (fun c => c.id == cmd_id) with
  | [] => (.error (.commandNotFound drv.device_info.name cmd_id), drv)
  | c :: _ => (.ok c, drv)

/-- Embeds the `remote_layout_size` property: `(width, height) = (3, 9)`. -/
def remote_layout_size : Int × Int := (3, 9)

/-- Embeds the `remote_layout` property: nine rows of three command ids,
with `-1` as the empty-slot sentinel. -/
def remote_layout : List (List Int) :=
  [ [TOGGLE_POWER, TOGGLE_DISPLAY, TOGGLE_VU],
    [VOLUME_DOWN, -1, VOLUME_UP],
    [PLAY_PREVIOUS, PLAY_PAUSE, PLAY_NEXT],
    [-1, -1, -1],
    [INPUT_INTERNAL_PLAYER, INPUT_BLUETOOTH, INPUT_USB],
    [INPUT_OPTICAL, -1, INPUT_COAX],
    [-1, -1, -1],
    [OUTPUT_BALXLR, OUTPUT_ANALOG_RCA, OUTPUT_XLR_RCA],
    [OUTPUT_HDMI, OUTPUT_SPDIF, OUTPUT_USB_DAC] ]

/-- Embeds `DmpA6DeviceDriverDescriptor.create_device_instance`: resolve the
device via `get_device`, then construct a `DmpA6DeviceDriver` bound to it. -/
def create_device_instance (st : RegistryState) (device_id : String) :
    Except PyExn DmpA6DeviceDriver × RegistryState :=
  match get_device st device_id with
  | (.error e, st') => (.error e, st')
  | (.ok d, st') => (.ok (mkDriver d), st')

/-- The externally facing operations of `DmpA6DeviceDriverDescriptor` that
the host can invoke (its factory surface).  `start_pairing` and
`finalize_pairing` are no-ops that never touch the cache. -/
inductive RegistryOp where
  | getDevices
  | getDevice (device_id : String)
  | createDeviceInstance (device_id : String)
  | startPairing
  | finalizePairing
deriving DecidableEq, Repr

/-- The registry state after running one descriptor operation. -/
def run_op (op : RegistryOp) (st : RegistryState) : RegistryState :=
  match op with
  | .getDevices => (get_devices st).2
  | .getDevice device_id => (get_device st device_id).2
  | .createDeviceInstance device_id => (create_device_instance st device_id).2
  | .startPairing => st
  | .finalizePairing => st

/-! Zeroconf discovery listener (`ZeroconfBrowser`). -/

/-- The `device` object of the JSON returned by a successful
`connect_device` handshake: `add_service` reads its `name` and `host`. -/
structure RawDevice where
  name : String
  host : String
deriving DecidableEq, Repr

/-- The environment `add_service` interacts with:
`service_info name` is the resolved address list of the announced service
(`none` when `zc.get_service_info` returns no info), and `connect addr` is
the outcome of the `connect_device` handshake against an address. -/
structure ZeroconfEnv where
  service_info : String → Option (List String)
  connect : String → Except Unit RawDevice

/-- Embeds `ZeroconfBrowser.add_service`: resolve the service, try the
handshake against the first resolved address, and append the confirmed
device to `_devices`; every exception inside the `try` block (including the
`addresses[0]` IndexError on an empty address list) is swallowed. -/
def add_service (env : ZeroconfEnv) (name : String) (devices : List DeviceInfo) :
    List DeviceInfo :=
  match env.service_info name with
  | none => devices
  | some addresses =>
    match addresses with
    | [] => devices
    | addr :: _ =>
      match env.connect addr with
      | .error _ => devices
      | .ok raw => devices ++ [⟨raw.name, raw.host⟩]

/-! Power toggle command (`DmpA6PowerToggleCommand`). -/

/-- The observable effect of one `DmpA6PowerToggleCommand.execute()` call. -/
inductive PowerEffect where
  /-- `await power_off(self._ip_address)` — the HTTP power-off fallback
  (note: `eversolo.py` defines no `power_off` function; the import of it in
  `commands.py` names a missing symbol). -/
  | callPowerOff (ip_address : String)
  /-- No action: the lirc branch's body is `pass`. -/
  | noAction
deriving DecidableEq, Repr

/-- Embeds `DmpA6PowerToggleCommand.execute`: `self._lirc_client` is `none`
when `lirc.Client()` raised `LircdConnectionError` in `__init__`.  With no
lirc client the command awaits `power_off`; otherwise the body under the
comment "use lirc to toggle power" is `pass`, so nothing is emitted. -/
def power_toggle_execute (lirc_client : Option Unit) (ip_address : String) : PowerEffect :=
  match lirc_client with
  | none => .callPowerOff ip_address
  | some _ => .noAction

/-! HTTP control client (`eversolo.py`).  The network response body is an
input of the embedded operations; `json.loads` is modelled by a JSON parser
over a value type with integer numerals (the device responses carry integer
status codes). -/

/-- A parsed JSON value as produced by `json.loads` (numerals restricted to
integers). -/
inductive Json where
  | null
  | bool (b : Bool)
  | num (n : Int)
  | str (s : String)
  | arr (elems : List Json)
  | obj (fields : List (String × Json))

/-- JSON insignificant whitespace. -/
def isJsonWs (c : Char) : Bool :=
  c = ' ' || c = '\t' || c = '\n' || c = '\r'

/-- Drop leading JSON whitespace. -/
def skipWs : List Char → List Char
  | [] => []
  | c :: cs => if isJsonWs c then skipWs cs else c :: cs

/-- The supported escape sequences: the character after the backslash paired
with the character it denotes. -/
def escapeTable : List (Char × Char) :=
  [('"', '"'), ('\\', '\\'), ('/', '/'), ('n', '\n'), ('t', '\t'), ('r', '\r')]

/-- Parse the remainder of a string literal (after the opening quote),
returning the decoded characters and the input after the closing quote. -/
def parseStringBody : List Char → Option (List Char × List Char)
  | [] => none
  | '"' :: cs => some ([], cs)
  | '\\' :: c :: cs => do
    let esc ← escapeTable.lookup c
    let (rest, cs') ← parseStringBody cs
    some (esc :: rest, cs')
  | c :: cs =>
    if c = '\\' then none
    else do
      let (rest, cs') ← parseStringBody cs
      some (c :: rest, cs')

/-- Decimal digits to a natural number. -/
def digitsToNat (ds : List Char) : Nat :=
  ds.foldl (fun acc c => acc * 10 + (c.toNat - '0'.toNat)) 0

/-- Parse a non-empty digit sequence into its value and the rest of the
input. -/
def parseDigitsValue (cs : List Char) : Option (Nat × List Char) :=
  let ds := cs.takeWhile (fun c => c.isDigit)
  if ds.isEmpty then none
  else some (digitsToNat ds, cs.dropWhile (fun c => c.isDigit))

/-- Parse an integer numeral (optional minus sign, one or more digits). -/
def parseNumber (cs : List Char) : Option (Json × List Char) :=
  match cs with
  | '-' :: cs1 => do
    let (n, rest) ← parseDigitsValue cs1
    some (.num (-(Int.ofNat n)), rest)
  | _ => do
    let (n, rest) ← parseDigitsValue cs
    some (.num (Int.ofNat n), rest)

/-- Strip an expected literal keyword from the front of the input. -/
def stripLit : List Char → List Char → Option (List Char)
  | [], cs => some cs
  | k :: ks, c :: cs => if c = k then stripLit ks cs else none
  | _ :: _, [] => none

/-- Match a leading JSON keyword (`null`, `true`, `false`). -/
def parseKeyword (cs : List Char) : Option (Json × List Char) :=
  match stripLit "null".data cs with
  | some rest => some (.null, rest)
  | none =>
    match stripLit "true".data cs with
    | some rest => some (.bool true, rest)
    | none =>
      match stripLit "false".data cs with
      | some rest => some (.bool false, rest)
      | none => none

mutual

/-- Parse one JSON value; `fuel` bounds the nesting recursion. -/
def parseValue : Nat → List Char → Option (Json × List Char)
  | 0, _ => none
  | fuel + 1, cs =>
    match skipWs cs with
    | '"' :: rest => do
      let (s, rest') ← parseStringBody rest
      some (.str (String.mk s), rest')
    | '[' :: rest =>
      (match skipWs rest with
       | ']' :: rest' => some (.arr [], rest')
       | _ => do
         let (elems, rest') ← parseElems fuel rest
         some (.arr elems, rest'))
    | '{' :: rest =>
      (match skipWs rest with
       | '}' :: rest' => some (.obj [], rest')
       | _ => do
         let (fields, rest') ← parseFields fuel rest
         some (.obj fields, rest'))
    | cs' =>
      match parseKeyword cs' with
      | some r => some r
      | none => parseNumber cs'

/-- Parse one or more comma-separated array elements up to the closing
bracket. -/
def parseElems : Nat → List Char → Option (List Json × List Char)
  | 0, _ => none
  | fuel + 1, cs => do
    let (v, rest) ← parseValue fuel cs
    match skipWs rest with
    | ',' :: rest' => do
      let (vs, rest'') ← parseElems fuel rest'
      some (v :: vs, rest'')
    | ']' :: rest' => some ([v], rest')
    | _ => none

/-- Parse one or more comma-separated object members up to the closing
brace. -/
def parseFields : Nat → List Char → Option (List (String × Json) × List Char)
  | 0, _ => none
  | fuel + 1, cs =>
    match skipWs cs with
    | '"' :: rest => do
      let (k, rest1) ← parseStringBody rest
      match skipWs rest1 with
      | ':' :: rest2 => do
        let (v, rest3) ← parseValue fuel rest2
        match skipWs rest3 with
        | ',' :: rest4 => do
          let (fs, rest5) ← parseFields fuel rest4
          some ((String.mk k, v) :: fs, rest5)
        | '}' :: rest4 => some ([(String.mk k, v)], rest4)
        | _ => none
      | _ => none
    | _ => none

end

/-- Model of `json.loads`: parse the whole body as one JSON value (only
trailing whitespace may remain); a malformed body raises
`json.JSONDecodeError`. -/
def json_loads (s : String) : Except PyExn Json :=
  match parseValue (s.length + 1) s.data with
  | none => .error .jsonDecodeError
  | some (v, rest) =>
    if (skipWs rest).isEmpty then .ok v else .error .jsonDecodeError

/-- Embeds `eversolo._execute_command` applied to the response body it
received: `json.loads(response_text)` with no exception handler, so a parse
failure escapes the function. -/
def execute_command (response_text : String) : Except PyExn Json :=
  json_loads response_text

/-- Python dict subscript `j[key]` on a parsed JSON value: `KeyError` on a
missing key, `TypeError` when the value is not an object. -/
def json_getitem (j : Json) (key : String) : Except PyExn Json :=
  match j with
  | .obj fields =>
    match fields.lookup key with
    | some v => .ok v
    | none => .error .keyError
  | _ => .error .typeError

/-- Python equality between a JSON value and an integer, as in
`response["status"] != 200`: only a numeral can equal an integer and values
of other shapes compare unequal without an exception. -/
def jsonEqInt (j : Json) (n : Int) : Bool :=
  match j with
  | .num m => m == n
  | _ => false

/-- Embeds the shared body of every per-command callback of `eversolo.py`
(`play_or_pause`, `increase_volume`, ...): call `_execute_command`, read
`response["status"]`, and on a non-200 status do nothing (`pass`).  Every
exception raised below propagates past the callback. -/
def run_eversolo_callback (cb : EversoloCallback) (response_text : String) :
    Except PyExn Unit :=
  let _ := callback_uri cb
  match execute_command response_text with
  | .error e => .error e
  | .ok response =>
    match json_getitem response "status" with
    | .error e => .error e
    | .ok status => if jsonEqInt status 200 = false then .ok () else .ok ()

/-- A concrete zeroconf environment: one announced service resolving to one
address whose handshake succeeds. -/
def sampleEnv : ZeroconfEnv where
  service_info := fun n =>
    if n = "DMP-A6._adb._tcp.local." then some ["10.0.0.5"] else none
  connect := fun a =>
    if a = "10.0.0.5" then .ok ⟨"DMP-A6", "10.0.0.5"⟩ else .error ()

/-! Helper lemmas. -/

/-- The cache after `get_devices`: unchanged when the live list is empty,
else overwritten with the serialised live list. -/
theorem get_devices_snd (st : RegistryState) :
    (get_devices st).2 =
      if st.live = [] then st else cache_devices st st.live := by
  rw [get_devices]
  rcases h : st.live with _ | ⟨d, ds⟩ <;> simp [h]

/-- `get_device` leaves the registry in the same state as the underlying
`get_devices` call. -/
theorem get_device_snd (st : RegistryState) (device_id : String) :
    (get_device st device_id).2 = (get_devices st).2 := by
  rw [get_device]
  rcases hp : get_devices st with ⟨r, st'⟩
  rcases r with e | devices
  · rfl
  · rcases hf : devices.filter (fun d => d.device_id == device_id) with _ | ⟨d, t⟩ <;>
      simp [hf]

/-- `create_device_instance` leaves the registry in the same state as the
underlying `get_device` call. -/
theorem create_device_instance_snd (st : RegistryState) (device_id : String) :
    (create_device_instance st device_id).2 = (get_device st device_id).2 := by
  rw [create_device_instance]
  rcases hp : get_device st device_id with ⟨r, st'⟩
  rcases r with e | d <;> rfl

/-! Claim theorems. -/

/-- C1: the claim says `get_devices` with an empty live list returns the
persisted cache contents and never errors.  In the source, once a cache
entry exists, `_cached_devices` runs `json.loads[jsn]` — a subscript of the
function `json.loads` — so the call raises `TypeError` instead of returning
the cached list: evaluated here at an empty live list and a one-device cache
entry. -/
theorem get_devices_cached_entry_raises :
    get_devices ⟨[], some [⟨"Living Room", "10.0.0.5"⟩]⟩ =
      (.error .typeError, ⟨[], some [⟨"Living Room", "10.0.0.5"⟩]⟩) := rfl

/-- C2: the claim says writing a non-empty device list with `_cache_devices`
and reading it back with `_cached_devices` yields the same `{name,
device_id}` pairs.  In the source the read side raises `TypeError` (the
`json.loads[jsn]` subscript), so the round-trip never returns the written
list: evaluated here at a one-device list. -/
theorem cache_roundtrip_read_raises :
    cached_devices (cache_devices ⟨[], none⟩ [⟨"Living Room", "10.0.0.5"⟩]) =
      .error .typeError := rfl

/-- C3: over every registry operation the cache entry is either left
unchanged or, only when the live discovered list is non-empty, overwritten
with the serialisation of that live list — which is then itself non-empty,
so the cache is never overwritten with an empty list. -/
theorem cache_write_invariant (op : RegistryOp) (st : RegistryState) :
    (run_op op st).cache = st.cache ∨
      (st.live ≠ [] ∧ (run_op op st).cache = some (encode_devices st.live) ∧
        encode_devices st.live ≠ []) := by
  have hch : ∀ s : RegistryState, s = (get_devices st).2 →
      s.cache = st.cache ∨
        (st.live ≠ [] ∧ s.cache = some (encode_devices st.live) ∧
          encode_devices st.live ≠ []) := by
    intro s hs
    rw [hs, get_devices_snd st]
    by_cases h : st.live = []
    · left; simp [h]
    · right
      refine ⟨h, ?_, ?_⟩
      · simp [h, cache_devices]
      · simp [encode_devices, h]
  cases op with
  | getDevices => exact hch _ rfl
  | getDevice device_id => exact hch _ (get_device_snd st device_id)
  | createDeviceInstance device_id =>
    exact hch _ ((create_device_instance_snd st device_id).trans
      (get_device_snd st device_id))
  | startPairing => left; rfl
  | finalizePairing => left; rfl

/-- C4 counterexample: the claim says processing the same service name twice
(same resolved address, successful handshake both times) adds at most one
entry per service name.  In the source `add_service` appends on every
successful confirmation with no deduplication: processing the same
announcement twice yields two entries with the same address. -/
theorem add_service_duplicate_counterexample :
    add_service sampleEnv "DMP-A6._adb._tcp.local."
        (add_service sampleEnv "DMP-A6._adb._tcp.local." []) =
      [⟨"DMP-A6", "10.0.0.5"⟩, ⟨"DMP-A6", "10.0.0.5"⟩] ∧
    (add_service sampleEnv "DMP-A6._adb._tcp.local."
        (add_service sampleEnv "DMP-A6._adb._tcp.local." [])).countP
      (fun d => d.device_id == "10.0.0.5") = 2 := by
  constructor <;> rfl

/-- C4 amended: every successful confirmation appends one entry, so
processing the same service name twice with the same resolved address and a
successful handshake both times appends the confirmed device twice (no
deduplication by service name). -/
theorem add_service_appends_per_announcement (env : ZeroconfEnv) (name : String)
    (devices : List DeviceInfo) (addr : String) (rest : List String)
    (raw : RawDevice) (hinfo : env.service_info name = some (addr :: rest))
    (hconn : env.connect addr = .ok raw) :
    add_service env name (add_service env name devices) =
      devices ++ [⟨raw.name, raw.host⟩, ⟨raw.name, raw.host⟩] := by
  simp [add_service, hinfo, hconn]

/-- C4 witness: the amended behaviour at the concrete environment
`sampleEnv`, whose single service resolves to one address with a successful
handshake. -/
theorem add_service_appends_witness :
    sampleEnv.service_info "DMP-A6._adb._tcp.local." = some ["10.0.0.5"] ∧
    sampleEnv.connect "10.0.0.5" = .ok ⟨"DMP-A6", "10.0.0.5"⟩ ∧
    add_service sampleEnv "DMP-A6._adb._tcp.local."
        (add_service sampleEnv "DMP-A6._adb._tcp.local." [⟨"Other", "10.0.0.9"⟩]) =
      [⟨"Other", "10.0.0.9"⟩] ++ [⟨"DMP-A6", "10.0.0.5"⟩, ⟨"DMP-A6", "10.0.0.5"⟩] :=
  ⟨rfl, rfl,
    add_service_appends_per_announcement sampleEnv "DMP-A6._adb._tcp.local."
      [⟨"Other", "10.0.0.9"⟩] "10.0.0.5" [] ⟨"DMP-A6", "10.0.0.5"⟩ rfl rfl⟩

/-- C5: for every command id present in the catalog of a driver built by
`create_commands`, `get_command` returns a catalog command with that id and
leaves the catalog unchanged; for every id not present it raises
`CommandNotFoundException(self.name, cmd_id)`. -/
theorem get_command_spec (device_info : DeviceInfo) (cmd_id : Int) :
    ((∃ c ∈ (mkDriver device_info).commands, c.id = cmd_id) →
      ∃ c, (driver_get_command (mkDriver device_info) cmd_id).1 = .ok c ∧
        c.id = cmd_id ∧ c ∈ (mkDriver device_info).commands) ∧
    ((∀ c ∈ (mkDriver device_info).commands, c.id ≠ cmd_id) →
      (driver_get_command (mkDriver device_info) cmd_id).1 =
        .error (.commandNotFound device_info.name cmd_id)) ∧
    (driver_get_command (mkDriver device_info) cmd_id).2 = mkDriver device_info := by
  rw [driver_get_command]
  rcases hf : (mkDriver device_info).commands.filter (fun c => c.id == cmd_id) with
      _ | ⟨c, t⟩
  · rw [hf]
    refine ⟨?_, fun _ => rfl, rfl⟩
    rintro ⟨c, hc, hid⟩
    have := List.filter_eq_nil_iff.mp hf c hc
    simp [hid] at this
  · rw [hf]
    have hmem : c ∈ (mkDriver device_info).commands.filter (fun c => c.id == cmd_id) := by
      rw [hf]; exact List.mem_cons_self c t
    have hc := List.mem_filter.mp hmem
    refine ⟨fun _ => ⟨c, rfl, by simpa using hc.2, hc.1⟩, fun hall => ?_, rfl⟩
    exact absurd (by simpa using hc.2) (hall c hc.1)

/-- C5 witness: in a concrete driver, id 1 (the power toggle) resolves to a
catalog command with id 1, and the unknown id 99 raises
`CommandNotFoundException`. -/
theorem get_command_spec_witness :
    (∃ c, (driver_get_command (mkDriver ⟨"Living Room", "10.0.0.5"⟩) 1).1 = .ok c ∧
      c.id = 1 ∧ c ∈ (mkDriver ⟨"Living Room", "10.0.0.5"⟩).commands) ∧
    (driver_get_command (mkDriver ⟨"Living Room", "10.0.0.5"⟩) 99).1 =
      .error (.commandNotFound "Living Room" 99) :=
  ⟨(get_command_spec ⟨"Living Room", "10.0.0.5"⟩ 1).1 (by decide),
    (get_command_spec ⟨"Living Room", "10.0.0.5"⟩ 99).2.1 (by decide)⟩

/-- C6: whenever the device listing returns a list `L`, `get_device` raises
`DeviceNotFoundException` exactly when no element of `L` carries the
requested id, and any device it returns is an element of `L` with that
id. -/
theorem get_device_spec (st : RegistryState) (device_id : String)
    (L : List DeviceInfo) (h : (get_devices st).1 = .ok L) :
    ((get_device st device_id).1 = .error (.deviceNotFound device_id) ↔
      ∀ d ∈ L, d.device_id ≠ device_id) ∧
    (∀ d, (get_device st device_id).1 = .ok d → d ∈ L ∧ d.device_id = device_id) := by
  rw [get_device]
  split
  case _ e st' heq =>
    rw [heq] at h
    simp at h
  case _ devices st' heq =>
    rw [heq] at h
    obtain rfl := Except.ok.inj h
    rcases hf : devices.filter (fun d => d.device_id == device_id) with _ | ⟨d, t⟩
    · rw [hf]
      refine ⟨⟨fun _ => ?_, fun _ => rfl⟩, fun d hd => ?_⟩
      · intro d hd
        have := List.filter_eq_nil_iff.mp hf d hd
        simpa using this
      · exact Except.noConfusion hd
    · rw [hf]
      have hmem : d ∈ devices.filter (fun d => d.device_id == device_id) := by
        rw [hf]; exact List.mem_cons_self d t
      have hd := List.mem_filter.mp hmem
      refine ⟨⟨fun h => Except.noConfusion h, fun hall => ?_⟩, fun d' hd' => ?_⟩
      · exact absurd (by simpa using hd.2) (hall d hd.1)
      · obtain rfl := Except.ok.inj hd'
        exact ⟨hd.1, by simpa using hd.2⟩

/-- C6 witness: in a registry whose live list holds one device, looking up
that device's id succeeds with a matching element, and looking up an unknown
id raises `DeviceNotFoundException`. -/
theorem get_device_spec_witness :
    (get_devices ⟨[⟨"Living Room", "10.0.0.5"⟩], none⟩).1 =
      .ok [⟨"Living Room", "10.0.0.5"⟩] ∧
    ((get_device ⟨[⟨"Living Room", "10.0.0.5"⟩], none⟩ "10.0.0.9").1 =
        .error (.deviceNotFound "10.0.0.9") ↔
      ∀ d ∈ [(⟨"Living Room", "10.0.0.5"⟩ : DeviceInfo)], d.device_id ≠ "10.0.0.9") :=
  ⟨rfl,
    (get_device_spec ⟨[⟨"Living Room", "10.0.0.5"⟩], none⟩ "10.0.0.9"
      [⟨"Living Room", "10.0.0.5"⟩] rfl).1⟩

/-- C7 counterexample: the claim says a response body that fails to parse as
JSON never raises past the client's boundary and yields an error result.  In
the source `_execute_command` calls `json.loads` with no handler, so the
decode exception escapes the callback: evaluated at the body "not json" of a
play/pause call. -/
theorem callback_parse_failure_counterexample :
    json_loads "not json" = .error .jsonDecodeError ∧
    run_eversolo_callback .playOrPause "not json" = .error .jsonDecodeError :=
  ⟨rfl, rfl⟩

/-- C7 amended: for every command callback, a response body on which
`json.loads` fails makes the JSON decode exception propagate past the
client's boundary; no error result is returned. -/
theorem callback_parse_failure_propagates (cb : EversoloCallback) (s : String)
    (e : PyExn) (h : json_loads s = .error e) :
    run_eversolo_callback cb s = .error e := by
  simp [run_eversolo_callback, execute_command, h]

/-- C7 witness: the volume-up callback on the unparsable body "<<<"
propagates the JSON decode exception. -/
theorem callback_parse_failure_witness :
    json_loads "<<<" = .error .jsonDecodeError ∧
    run_eversolo_callback .increaseVolume "<<<" = .error .jsonDecodeError :=
  ⟨rfl, callback_parse_failure_propagates .increaseVolume "<<<" .jsonDecodeError rfl⟩

/-- C8: the claim says the power toggle emits the infrared code when the
infrared transport initialised successfully and falls back to the HTTP
power-off action otherwise.  In the source the fallback branch does call
`power_off`, but with a lirc client present the body under the comment "use
lirc to toggle power" is just `pass`: no infrared code is emitted (and
`eversolo.py` defines no `power_off` function, so even the fallback import
names a missing symbol). -/
theorem power_toggle_effects :
    power_toggle_execute (some ()) "10.0.0.5" = .noAction ∧
    power_toggle_execute none "10.0.0.5" = .callPowerOff "10.0.0.5" :=
  ⟨rfl, rfl⟩

/-- C9: the remote layout is a fixed 3-wide, 9-tall grid — `remote_layout_size`
is `(3, 9)` and `remote_layout` has nine rows of three entries — with the
power-toggle id at cell (0,0) and the empty-slot sentinel -1 at cell (1,1). -/
theorem remote_layout_grid_spec :
    remote_layout_size = (3, 9) ∧
    remote_layout.length = 9 ∧
    remote_layout.map List.length = [3, 3, 3, 3, 3, 3, 3, 3, 3] ∧
    (remote_layout.getD 0 []).getD 0 (-2) = TOGGLE_POWER ∧
    (remote_layout.getD 1 []).getD 1 (-2) = -1 :=
  ⟨rfl, rfl, rfl, rfl, rfl⟩

/-- C10: for every device address, the ids of the catalog built by
`create_commands` are pairwise distinct, and every non-sentinel entry of the
remote layout grid is the id of some catalog command. -/
theorem catalog_ids_nodup_and_cover_layout (device_id : String) :
    ((create_commands device_id).map (fun c => c.id)).Nodup ∧
    remote_layout.flatten.all
      (fun i => i == -1 ||
        ((create_commands device_id).map (fun c => c.id)).contains i) = true := by
  have hids : (create_commands device_id).map (fun c => c.id) =
      [1, 2, 3, 4, 5, 6, 7, 8, 10, 11, 12, 13, 14, 15, 16, 17, 18, 19, 20] := rfl
  rw [hids]
  exact ⟨by decide, by decide⟩

end DmpA6
